import Mathlib

/-!
Verification of the equipment-list-api request handlers.

Shallow embedding of the handlers in `src/netlify/functions/` (and the
alternate handler versions shipped alongside them) as pure Lean functions.
JavaScript strings are modelled as `String` (or `List Char` where the
sanitisation routines operate character by character); absent / `undefined`
JSON fields are modelled as `Option`; JavaScript truthiness on strings and
numbers is modelled explicitly (`""` and `0` are falsy).  The external
stores (Supabase tables, the Shopify customer metafield, the Resend email
API) are modelled as explicit state passed through the step functions; a
handler's network side effect is represented by the outcome value it
computes before performing the call.
-/

set_option maxHeartbeats 1000000
set_option maxRecDepth 8192

namespace EquipmentListApi

/-! ### Equipment store: `equipment-save.js`

`sanitizeMachine` and its inner `sanitize` helper, `saveEquipmentData`,
`addSingleEquipment`, `getCustomerEquipment` and `fetchCustomerEquipment`
are embedded from `src/netlify/functions/equipment-save.js`.  Free-text
fields are `List Char` so that the char-level `replace`/`substring`/`trim`
pipeline is modelled exactly.  The nondeterministic environment (the
current timestamp ISO string and the base-36 `Date.now()` digits used for
generated ids) is passed as explicit parameters `now` and `ts36`. -/

/-- `String(str).replace(/[<>]/g, '')`: drop every `<` and `>` character. -/
def stripAngles (s : List Char) : List Char :=
  s.filter (fun c => !(c == '<' || c == '>'))

/-- `.trim()`: drop leading and trailing whitespace. -/
def trimChars (s : List Char) : List Char :=
  ((s.dropWhile Char.isWhitespace).reverse.dropWhile Char.isWhitespace).reverse

/-- The `sanitize` closure inside `sanitizeMachine`:
`if (!str) return ''; return String(str).replace(/[<>]/g, '').substring(0, 200).trim()`.
A missing/empty (falsy) input is the empty string. -/
def sanitize (s : List Char) : List Char :=
  if s.isEmpty then [] else trimChars ((stripAngles s).take 200)

/-- A machine record of the equipment profile (wire shape of
`sanitizeMachine`'s input and output; absent string fields are `[]`,
which is exactly how JavaScript's falsy check treats them). -/
structure Machine where
  id : List Char
  name : List Char
  category : List Char
  make : List Char
  type : List Char
  submodel : List Char
  model : List Char
  variant : List Char
  year : List Char
  trim : List Char
  engine : List Char
  serial : List Char
  favorite : Bool
  createdAt : List Char
  updatedAt : List Char
  deriving DecidableEq

/-- `sanitizeMachine` from `equipment-save.js`: sanitise every free-text
field, keep `favorite` as a boolean, default `createdAt` to `now`, stamp
`updatedAt`, and fall back to a generated id `'eq_' + Date.now().toString(36)`
when the sanitised id is empty (JavaScript `sanitize(machine.id) || ...`). -/
def sanitizeMachine (now ts36 : List Char) (m : Machine) : Machine :=
  { id := if (sanitize m.id).isEmpty then "eq_".toList ++ ts36 else sanitize m.id
    name := sanitize m.name
    category := sanitize m.category
    make := sanitize m.make
    type := sanitize m.type
    submodel := sanitize m.submodel
    model := sanitize m.model
    variant := sanitize m.variant
    year := sanitize m.year
    trim := sanitize m.trim
    engine := sanitize m.engine
    serial := sanitize m.serial
    favorite := m.favorite
    createdAt := if m.createdAt.isEmpty then now else m.createdAt
    updatedAt := now }

/-- The JSON document stored in the `custom.equipment_list` metafield. -/
structure EquipmentDoc where
  machines : List Machine
  updatedAt : List Char
  deriving DecidableEq

/-- Outcome of the pure prefix of `saveEquipmentData`: either an early
4xx response (no write is attempted), or the metafield write it performs. -/
inductive SaveResult where
  | reject (status : Nat) (error : String)
  | write (doc : EquipmentDoc)
  deriving DecidableEq

/-- HTTP status of a `SaveResult`; a `write`'s status depends on the
upstream GraphQL response (200 on success, 500 on failure), hence `none`. -/
def SaveResult.status? : SaveResult → Option Nat
  | .reject s _ => some s
  | .write _ => none

/-- `saveEquipmentData` from `equipment-save.js` (validation and
sanitisation; the trailing GraphQL call is represented by the `write`
outcome).  `none` models a body whose `machines` is not an array. -/
def saveEquipmentData (now ts36 : List Char) (machines? : Option (List Machine)) : SaveResult :=
  match machines? with
  | none => .reject 400 "Invalid equipment data format"
  | some machines =>
    if machines.length > 500 then
      .reject 400 "Maximum 500 machines allowed"
    else if (machines.filter (fun m => m.favorite)).length > 4 then
      .reject 400 "Maximum 4 favorites allowed"
    else
      .write { machines := machines.map (sanitizeMachine now ts36), updatedAt := now }

/-- Effect of a `SaveResult` on the stored metafield: a rejection leaves
it untouched, a write replaces it wholesale (last write wins). -/
def applySave (r : SaveResult) (stored : Option EquipmentDoc) : Option EquipmentDoc :=
  match r with
  | .reject _ _ => stored
  | .write doc => some doc

/-- What the Shopify round trip inside `fetchCustomerEquipment` can yield:
a response whose metafield is present or absent, or a thrown error
(network failure / unparseable JSON), which the `catch` block swallows. -/
inductive EquipFetchUpstream where
  | ok (metafield : Option EquipmentDoc)
  | err (msg : String)
  deriving DecidableEq

/-- The profile value `fetchCustomerEquipment` returns (the `customer`
info attached on the success path is elided; `error?` is the `error`
field added by the `catch` branch). -/
structure FetchedEquipment where
  machines : List Machine
  error? : Option String
  deriving DecidableEq

/-- `fetchCustomerEquipment` from `equipment-save.js`: a present metafield
yields its parsed document; a missing metafield yields `{ machines: [] }`;
a thrown error is caught and yields `{ machines: [], error: e.message }`. -/
def fetchCustomerEquipment : EquipFetchUpstream → FetchedEquipment
  | .ok (some doc) => { machines := doc.machines, error? := none }
  | .ok none => { machines := [], error? := none }
  | .err msg => { machines := [], error? := some msg }

/-- Does this upstream interaction count as a failed read (network error
or missing metafield)? -/
def EquipFetchUpstream.failedRead : EquipFetchUpstream → Bool
  | .ok (some _) => false
  | .ok none => true
  | .err _ => true

/-- `getCustomerEquipment` from `equipment-save.js`: always statusCode 200
with the fetched profile as the body. -/
def getCustomerEquipment (u : EquipFetchUpstream) : Nat × FetchedEquipment :=
  (200, fetchCustomerEquipment u)

/-- `addSingleEquipment` from `equipment-save.js`: read-modify-write —
fetch the current profile, push the sanitised new machine, delegate to
`saveEquipmentData` (which re-sanitises the whole list). -/
def addSingleEquipment (now ts36 : List Char) (u : EquipFetchUpstream) (equipment : Machine) :
    SaveResult :=
  saveEquipmentData now ts36
    (some ((fetchCustomerEquipment u).machines ++ [sanitizeMachine now ts36 equipment]))

/-! ### Sanitisation lemmas -/

/-- A free-text field is clean when it contains neither `<` nor `>`. -/
def noAngles (s : List Char) : Prop := ∀ c ∈ s, c ≠ '<' ∧ c ≠ '>'

theorem trimChars_subset {s : List Char} {c : Char} (h : c ∈ trimChars s) : c ∈ s := by
  unfold trimChars at h
  rw [List.mem_reverse] at h
  have h1 := (List.dropWhile_suffix Char.isWhitespace).sublist.mem h
  rw [List.mem_reverse] at h1
  exact (List.dropWhile_suffix Char.isWhitespace).sublist.mem h1

theorem trimChars_length_le (s : List Char) : (trimChars s).length ≤ s.length := by
  unfold trimChars
  rw [List.length_reverse]
  calc ((s.dropWhile Char.isWhitespace).reverse.dropWhile Char.isWhitespace).length
      ≤ (s.dropWhile Char.isWhitespace).reverse.length :=
        (List.dropWhile_suffix Char.isWhitespace).sublist.length_le
    _ = (s.dropWhile Char.isWhitespace).length := List.length_reverse _
    _ ≤ s.length := (List.dropWhile_suffix Char.isWhitespace).sublist.length_le

theorem sanitize_noAngles (s : List Char) : noAngles (sanitize s) := by
  intro c hc
  unfold sanitize at hc
  split at hc
  · simp at hc
  · have h1 : c ∈ (stripAngles s).take 200 := trimChars_subset hc
    have h2 : c ∈ stripAngles s := List.mem_of_mem_take h1
    have h3 := List.of_mem_filter h2
    simp only [Bool.not_eq_true', Bool.or_eq_false_iff, beq_eq_false_iff_ne] at h3
    exact h3

theorem sanitize_length_le (s : List Char) : (sanitize s).length ≤ 200 := by
  unfold sanitize
  split
  · simp
  · calc (trimChars ((stripAngles s).take 200)).length
        ≤ ((stripAngles s).take 200).length := trimChars_length_le _
      _ ≤ 200 := (stripAngles s).length_take_le 200

/-- C4: every free-text output field of `sanitizeMachine` contains no `<`
and no `>` and has length at most 200 (the configured maximum in
`equipment-save.js`); when the input id sanitises to the empty string
(in particular when it is empty), the output id is the freshly generated
`'eq_' + Date.now().toString(36)` identifier, which is non-empty; a
non-empty sanitised id is itself clean and length-capped. -/
theorem sanitizeMachine_clean (now ts36 : List Char) (m : Machine) :
    (noAngles (sanitizeMachine now ts36 m).name ∧ (sanitizeMachine now ts36 m).name.length ≤ 200) ∧
    (noAngles (sanitizeMachine now ts36 m).category ∧
      (sanitizeMachine now ts36 m).category.length ≤ 200) ∧
    (noAngles (sanitizeMachine now ts36 m).make ∧ (sanitizeMachine now ts36 m).make.length ≤ 200) ∧
    (noAngles (sanitizeMachine now ts36 m).type ∧ (sanitizeMachine now ts36 m).type.length ≤ 200) ∧
    (noAngles (sanitizeMachine now ts36 m).submodel ∧
      (sanitizeMachine now ts36 m).submodel.length ≤ 200) ∧
    (noAngles (sanitizeMachine now ts36 m).model ∧
      (sanitizeMachine now ts36 m).model.length ≤ 200) ∧
    (noAngles (sanitizeMachine now ts36 m).variant ∧
      (sanitizeMachine now ts36 m).variant.length ≤ 200) ∧
    (noAngles (sanitizeMachine now ts36 m).year ∧ (sanitizeMachine now ts36 m).year.length ≤ 200) ∧
    (noAngles (sanitizeMachine now ts36 m).trim ∧ (sanitizeMachine now ts36 m).trim.length ≤ 200) ∧
    (noAngles (sanitizeMachine now ts36 m).engine ∧
      (sanitizeMachine now ts36 m).engine.length ≤ 200) ∧
    (noAngles (sanitizeMachine now ts36 m).serial ∧
      (sanitizeMachine now ts36 m).serial.length ≤ 200) ∧
    (sanitize m.id = [] → (sanitizeMachine now ts36 m).id = "eq_".toList ++ ts36 ∧
      (sanitizeMachine now ts36 m).id ≠ []) ∧
    (sanitize m.id ≠ [] → (sanitizeMachine now ts36 m).id = sanitize m.id ∧
      noAngles (sanitizeMachine now ts36 m).id ∧ (sanitizeMachine now ts36 m).id.length ≤ 200) := by
  refine ⟨⟨sanitize_noAngles _, sanitize_length_le _⟩, ⟨sanitize_noAngles _, sanitize_length_le _⟩,
    ⟨sanitize_noAngles _, sanitize_length_le _⟩, ⟨sanitize_noAngles _, sanitize_length_le _⟩,
    ⟨sanitize_noAngles _, sanitize_length_le _⟩, ⟨sanitize_noAngles _, sanitize_length_le _⟩,
    ⟨sanitize_noAngles _, sanitize_length_le _⟩, ⟨sanitize_noAngles _, sanitize_length_le _⟩,
    ⟨sanitize_noAngles _, sanitize_length_le _⟩, ⟨sanitize_noAngles _, sanitize_length_le _⟩,
    ⟨sanitize_noAngles _, sanitize_length_le _⟩, ?_, ?_⟩
  · intro h
    constructor
    · simp [sanitizeMachine, h]
    · simp [sanitizeMachine, h]
  · intro h
    have hid : (sanitizeMachine now ts36 m).id = sanitize m.id := by
      simp [sanitizeMachine, List.isEmpty_iff, h]
    exact ⟨hid, by rw [hid]; exact sanitize_noAngles _, by rw [hid]; exact sanitize_length_le _⟩

/-- Concrete machine used to instantiate the C4 hypotheses: its id is
`"<>"`, which sanitises to the empty string. -/
def demoMachine : Machine :=
  { id := "<>".toList, name := "  <b>Crawler</b>  ".toList, category := "Excavator".toList,
    make := "Acme".toList, type := "track".toList, submodel := [], model := "X100".toList,
    variant := [], year := "2021".toList, trim := [], engine := "V8".toList,
    serial := "SN<1>".toList, favorite := true, createdAt := [], updatedAt := [] }

/-- Witness for C4 at `demoMachine`: its id sanitises to empty and the
output id is the generated one. -/
theorem sanitizeMachine_clean_witness :
    (sanitizeMachine "2024-01-01T00:00:00Z".toList "lq1".toList demoMachine).id =
      "eq_".toList ++ "lq1".toList ∧
    (sanitizeMachine "2024-01-01T00:00:00Z".toList "lq1".toList demoMachine).id ≠ [] ∧
    noAngles (sanitizeMachine "2024-01-01T00:00:00Z".toList "lq1".toList demoMachine).name := by
  have h := sanitizeMachine_clean "2024-01-01T00:00:00Z".toList "lq1".toList demoMachine
  have hid := h.2.2.2.2.2.2.2.2.2.2.2.1 (by decide)
  exact ⟨hid.1, hid.2, h.1.1⟩

/-! ### Equipment limit and failed-read theorems -/

/-- C2: an equipment Save whose machine list has more than 500 machines,
or more than 4 machines with `favorite` set, gets statusCode 400 from
`saveEquipmentData` and the validation fires before the metafield write is
built, so the stored profile is unchanged for every prior value. -/
theorem saveEquipmentData_limits (now ts36 : List Char) (machines : List Machine)
    (h : 500 < machines.length ∨ 4 < (machines.filter (fun m => m.favorite)).length) :
    (saveEquipmentData now ts36 (some machines)).status? = some 400 ∧
    ∀ stored, applySave (saveEquipmentData now ts36 (some machines)) stored = stored := by
  by_cases h5 : machines.length > 500
  · simp [saveEquipmentData, h5, SaveResult.status?, applySave]
  · have hfav : (machines.filter (fun m => m.favorite)).length > 4 := by
      rcases h with h | h
      · exact absurd h h5
      · exact h
    simp [saveEquipmentData, h5, hfav, SaveResult.status?, applySave]

/-- A blank machine record, used to build concrete oversized inputs. -/
def blankMachine : Machine :=
  { id := [], name := [], category := [], make := [], type := [], submodel := [], model := [],
    variant := [], year := [], trim := [], engine := [], serial := [], favorite := false,
    createdAt := [], updatedAt := [] }

/-- Witness for C2 at a concrete 501-machine list. -/
theorem saveEquipmentData_limits_witness :
    (saveEquipmentData [] [] (some (List.replicate 501 blankMachine))).status? = some 400 ∧
    applySave (saveEquipmentData [] [] (some (List.replicate 501 blankMachine))) none = none := by
  have h := saveEquipmentData_limits [] [] (List.replicate 501 blankMachine)
    (Or.inl (by simp))
  exact ⟨h.1, h.2 none⟩

/-- A one-machine list always passes the count and favorite limits, so
`saveEquipmentData` writes it (after re-sanitising). -/
theorem saveEquipmentData_singleton (now ts36 : List Char) (m : Machine) :
    saveEquipmentData now ts36 (some [m]) =
      .write { machines := [sanitizeMachine now ts36 m], updatedAt := now } := by
  have h2 : ¬(([m].filter (fun x => x.favorite)).length > 4) := by
    have hle := List.length_filter_le (fun x : Machine => x.favorite) [m]
    simp only [List.length_cons, List.length_nil] at hle
    omega
  have h1 : ¬(([m] : List Machine).length > 500) := by simp
  simp only [saveEquipmentData, if_neg h1, if_neg h2, List.map_cons, List.map_nil]

/-- C3: when the upstream equipment fetch fails (network error or missing
metafield), `fetchCustomerEquipment` yields an empty machine list rather
than an error; `getCustomerEquipment` therefore responds 200 with
`machines = []`; and `addSingleEquipment` run after such a failed read
writes a document containing only the newly appended machine, replacing
whatever was previously stored for the customer. -/
theorem failedRead_empty_profile (now ts36 : List Char) (u : EquipFetchUpstream)
    (equipment : Machine) (h : u.failedRead = true) :
    (fetchCustomerEquipment u).machines = [] ∧
    (getCustomerEquipment u).1 = 200 ∧ (getCustomerEquipment u).2.machines = [] ∧
    addSingleEquipment now ts36 u equipment =
      .write { machines := [sanitizeMachine now ts36 (sanitizeMachine now ts36 equipment)],
               updatedAt := now } ∧
    ∀ stored, applySave (addSingleEquipment now ts36 u equipment) stored =
      some { machines := [sanitizeMachine now ts36 (sanitizeMachine now ts36 equipment)],
             updatedAt := now } := by
  have hm : (fetchCustomerEquipment u).machines = [] := by
    cases u with
    | ok mf =>
      cases mf with
      | some doc => simp [EquipFetchUpstream.failedRead] at h
      | none => rfl
    | err msg => rfl
  have h4 : addSingleEquipment now ts36 u equipment =
      .write { machines := [sanitizeMachine now ts36 (sanitizeMachine now ts36 equipment)],
               updatedAt := now } := by
    unfold addSingleEquipment
    rw [hm, List.nil_append, saveEquipmentData_singleton]
  exact ⟨hm, rfl, hm, h4, fun stored => by rw [h4]; rfl⟩

/-- Witness for C3 at a concrete failed upstream read. -/
theorem failedRead_empty_profile_witness :
    (fetchCustomerEquipment (.err "fetch failed")).machines = [] ∧
    (getCustomerEquipment (.err "fetch failed")).1 = 200 ∧
    applySave (addSingleEquipment [] [] (.err "fetch failed") blankMachine)
        (some { machines := List.replicate 3 blankMachine, updatedAt := [] }) =
      some { machines := [sanitizeMachine [] [] (sanitizeMachine [] [] blankMachine)],
             updatedAt := [] } := by
  have h := failedRead_empty_profile [] [] (.err "fetch failed") blankMachine rfl
  exact ⟨h.1, h.2.1, h.2.2.2.2 _⟩

/-! ### Ticket data model

A row of the `support_tickets` table, as written by `ticket-create.js`
and mutated by the updater and reply handlers.  `Option` fields are
nullable columns. -/

structure Ticket where
  id : String
  ticketNumber : Nat
  customerId : String
  customerEmail : Option String
  customerName : Option String
  type : String
  priority : String
  status : String
  subject : String
  description : String
  assignedTo : Option String
  assignedName : Option String
  customerArchived : Bool
  adminArchived : Bool
  resolvedAt : Option String
  createdAt : String
  updatedAt : String
  deriving DecidableEq

/-! ### Ticket Writer: `ticket-create.js`

Two variants ship in the source.  The REST variant reads the current
maximum `ticket_number` (`order=ticket_number.desc&limit=1`) and adds 1,
seeding at 1001 when the table is empty; the SDK variant computes
`1001 + count` from the exact row count.  Both are embedded below; the
nondeterministic generated id and timestamp are explicit parameters. -/

/-- The body of a `POST ticket-create` request (validated fields only;
the handler rejects with 400 before numbering when any of `customerId`,
`type`, `subject`, `description` is falsy, inserting nothing). -/
structure NewTicketRequest where
  customerId : String
  customerEmail : Option String
  customerName : Option String
  type : String
  priority : Option String
  subject : String
  description : String
  deriving DecidableEq

/-- REST variant: `countData.length > 0 ? countData[0].ticket_number + 1 : 1001`
where `countData` holds the row with the largest `ticket_number`. -/
def nextTicketNumberRest (store : List Ticket) : Nat :=
  match (store.map Ticket.ticketNumber).max? with
  | none => 1001
  | some m => m + 1

/-- SDK variant: `1001 + (count || 0)` with `count` the exact row count. -/
def nextTicketNumberSdk (store : List Ticket) : Nat :=
  1001 + store.length

/-- The row `ticket-create.js` inserts (REST variant field defaults:
`priority` defaults to `'normal'`, status starts `'Open'`, subject and
description are trimmed, archive flags start false). -/
def buildTicket (genId now : String) (num : Nat) (req : NewTicketRequest) : Ticket :=
  { id := genId, ticketNumber := num, customerId := req.customerId,
    customerEmail := req.customerEmail, customerName := req.customerName,
    type := req.type, priority := req.priority.getD "normal", status := "Open",
    subject := req.subject.trim, description := req.description.trim,
    assignedTo := none, assignedName := none, customerArchived := false,
    adminArchived := false, resolvedAt := none, createdAt := now, updatedAt := now }

/-- One successful REST-variant creation: insert the new row with the
max-plus-one number. -/
def createTicketRest (genId now : String) (store : List Ticket) (req : NewTicketRequest) :
    List Ticket :=
  store ++ [buildTicket genId now (nextTicketNumberRest store) req]

/-- One successful SDK-variant creation: insert the new row with the
count-based number. -/
def createTicketSdk (genId now : String) (store : List Ticket) (req : NewTicketRequest) :
    List Ticket :=
  store ++ [buildTicket genId now (nextTicketNumberSdk store) req]

/-- Stores all of whose tickets were created, sequentially, by the REST
variant of the creation handler (no concurrent writers). -/
inductive SeqStoreRest : List Ticket → Prop where
  | nil : SeqStoreRest []
  | step (genId now : String) (req : NewTicketRequest) (s : List Ticket) :
      SeqStoreRest s → SeqStoreRest (createTicketRest genId now s req)

/-- Stores all of whose tickets were created, sequentially, by the SDK
variant of the creation handler. -/
inductive SeqStoreSdk : List Ticket → Prop where
  | nil : SeqStoreSdk []
  | step (genId now : String) (req : NewTicketRequest) (s : List Ticket) :
      SeqStoreSdk s → SeqStoreSdk (createTicketSdk genId now s req)

/-- The ticket number of the most recently created ticket. -/
def lastAssigned (store : List Ticket) : Option Nat :=
  (store.map Ticket.ticketNumber).getLast?

/-- The numbers 1001, 1002, …, 1000 + n. -/
def seqNums : Nat → List Nat
  | 0 => []
  | n + 1 => seqNums n ++ [1001 + n]

theorem max?_concat (l : List Nat) (x : Nat) :
    (l ++ [x]).max? = some (match l.max? with | none => x | some m => Nat.max m x) := by
  cases l with
  | nil => rfl
  | cons a as =>
    have h : (a :: as ++ [x]).max? = some ((as ++ [x]).foldl max a) := rfl
    rw [h, List.foldl_append max a as [x]]
    rfl

theorem seqNums_length (n : Nat) : (seqNums n).length = n := by
  induction n with
  | zero => rfl
  | succ m ih => simp [seqNums, ih]

theorem seqNums_max? (n : Nat) : (seqNums (n + 1)).max? = some (1001 + n) := by
  induction n with
  | zero => rfl
  | succ m ih =>
    show ((seqNums (m + 1)) ++ [1001 + (m + 1)]).max? = _
    rw [max?_concat, ih]
    simp only [Option.some.injEq]
    exact Nat.max_eq_right (by omega)

theorem seqNums_getLast? (n : Nat) : (seqNums (n + 1)).getLast? = some (1001 + n) :=
  List.getLast?_concat _

/-- Invariant: a REST-sequentially-built store carries exactly the
numbers 1001 … 1000 + length, in order. -/
theorem seqStoreRest_nums {s : List Ticket} (h : SeqStoreRest s) :
    s.map Ticket.ticketNumber = seqNums s.length := by
  induction h with
  | nil => rfl
  | step genId now req s hs ih =>
    have hnext : nextTicketNumberRest s = 1001 + s.length := by
      unfold nextTicketNumberRest
      rw [ih]
      cases hn : s.length with
      | zero => simp [seqNums]
      | succ m =>
        rw [seqNums_max?]
        show (1001 + m) + 1 = 1001 + (m + 1)
        omega
    simp only [createTicketRest, List.map_append, List.length_append, ih, buildTicket,
      List.map_cons, List.map_nil, List.length_cons, List.length_nil, hnext]
    rw [show s.length + (0 + 1) = s.length + 1 by omega]
    rfl

/-- Invariant: an SDK-sequentially-built store carries exactly the
numbers 1001 … 1000 + length, in order. -/
theorem seqStoreSdk_nums {s : List Ticket} (h : SeqStoreSdk s) :
    s.map Ticket.ticketNumber = seqNums s.length := by
  induction h with
  | nil => rfl
  | step genId now req s hs ih =>
    simp only [createTicketSdk, List.map_append, List.length_append, ih, buildTicket,
      nextTicketNumberSdk, List.map_cons, List.map_nil, List.length_cons, List.length_nil]
    rw [show s.length + (0 + 1) = s.length + 1 by omega]
    rfl

/-- C1: a creation against a store with no prior tickets assigns number
1001 (both handler variants), and a creation against a store whose
tickets were all created sequentially by the same variant assigns exactly
one more than the previously assigned number. -/
theorem ticketNumber_sequential (s : List Ticket) :
    (nextTicketNumberRest [] = 1001 ∧ nextTicketNumberSdk [] = 1001) ∧
    (SeqStoreRest s → ∀ n, lastAssigned s = some n → nextTicketNumberRest s = n + 1) ∧
    (SeqStoreSdk s → ∀ n, lastAssigned s = some n → nextTicketNumberSdk s = n + 1) := by
  refine ⟨⟨rfl, rfl⟩, ?_, ?_⟩
  · intro h n hn
    have hnums := seqStoreRest_nums h
    unfold lastAssigned at hn
    rw [hnums] at hn
    cases hl : s.length with
    | zero => rw [hl] at hn; simp [seqNums] at hn
    | succ m =>
      rw [hl, seqNums_getLast?] at hn
      injection hn with hnv
      unfold nextTicketNumberRest
      rw [hnums, hl, seqNums_max?]
      show (1001 + m) + 1 = n + 1
      omega
  · intro h n hn
    have hnums := seqStoreSdk_nums h
    unfold lastAssigned at hn
    rw [hnums] at hn
    cases hl : s.length with
    | zero => rw [hl] at hn; simp [seqNums] at hn
    | succ m =>
      rw [hl, seqNums_getLast?] at hn
      injection hn with hnv
      unfold nextTicketNumberSdk
      omega

/-- Concrete creation request used in witnesses. -/
def demoReq : NewTicketRequest :=
  { customerId := "42", customerEmail := none, customerName := none, type := "general",
    priority := none, subject := "Help", description := "Need help" }

/-- A store built by two sequential REST-variant creations. -/
def demoRestStore : List Ticket :=
  createTicketRest "tkt_b" "2024-01-02" (createTicketRest "tkt_a" "2024-01-01" [] demoReq) demoReq

/-- A store built by two sequential SDK-variant creations. -/
def demoSdkStore : List Ticket :=
  createTicketSdk "tkt_b" "2024-01-02" (createTicketSdk "tkt_a" "2024-01-01" [] demoReq) demoReq

/-- Witness for C1: after two sequential creations (last number 1002)
each variant assigns 1003 next. -/
theorem ticketNumber_sequential_witness :
    nextTicketNumberRest demoRestStore = 1002 + 1 ∧
    nextTicketNumberSdk demoSdkStore = 1002 + 1 := by
  constructor
  · exact (ticketNumber_sequential demoRestStore).2.1
      (SeqStoreRest.step _ _ _ _ (SeqStoreRest.step _ _ _ _ SeqStoreRest.nil)) 1002 (by decide)
  · exact (ticketNumber_sequential demoSdkStore).2.2
      (SeqStoreSdk.step _ _ _ _ (SeqStoreSdk.step _ _ _ _ SeqStoreSdk.nil)) 1002 (by decide)

/-! ### Ticket Updater: `ticket-update.js` (REST variant)

Embedded from the `ticket-update.js` REST variant (the richer of the two
shipped versions: it also handles the archive flags; the SDK variant's
status/priority/`resolved_at` logic is identical).  The handler verifies
the ticket exists, then builds a partial `updateData` object field by
field — returning 400 before any PATCH on an invalid enum value — and
finally PATCHes the row. -/

/-- Body of a `POST ticket-update` request.  `none` is an absent
(`undefined`) field; `assignedTo`'s inner `Option` is an explicit null. -/
structure TicketUpdateRequest where
  ticketId : String
  status : Option String
  priority : Option String
  assignedTo : Option (Option String)
  assignedName : Option String
  customerArchived : Option Bool
  adminArchived : Option Bool
  deriving DecidableEq

/-- The partial `updateData` object sent as the PATCH body: only the
fields present (`some`) are written; `updated_at` is always present. -/
structure TicketPatch where
  updatedAt : String
  status : Option String
  resolvedAt : Option String
  priority : Option String
  assignedTo : Option (Option String)
  assignedName : Option (Option String)
  customerArchived : Option Bool
  adminArchived : Option Bool
  deriving DecidableEq

def VALID_STATUSES : List String := ["Open", "Pending", "Resolved", "Closed"]

def VALID_PRIORITIES : List String := ["normal", "high", "urgent"]

/-- The empty update object `{ updated_at: now }`. -/
def emptyPatch (now : String) : TicketPatch :=
  { updatedAt := now, status := none, resolvedAt := none, priority := none,
    assignedTo := none, assignedName := none, customerArchived := none, adminArchived := none }

/-- The `status` block of the updater: reject an invalid status with 400,
otherwise record it, stamping `resolved_at` when it is Resolved or Closed. -/
def applyStatusField (now : String) (status? : Option String) (u : TicketPatch) :
    Except String TicketPatch :=
  match status? with
  | none => .ok u
  | some s =>
    if VALID_STATUSES.contains s then
      .ok { u with
            status := some s
            resolvedAt := if s = "Resolved" || s = "Closed" then some now else u.resolvedAt }
    else .error "Invalid status. Must be one of: Open, Pending, Resolved, Closed"

/-- The `priority` block: reject an invalid priority with 400. -/
def applyPriorityField (priority? : Option String) (u : TicketPatch) :
    Except String TicketPatch :=
  match priority? with
  | none => .ok u
  | some p =>
    if VALID_PRIORITIES.contains p then .ok { u with priority := some p }
    else .error "Invalid priority. Must be one of: normal, high, urgent"

/-- The assignment block: when `assignedTo` is present, set it and set
`assigned_name` to `assignedName || null`. -/
def applyAssignField (req : TicketUpdateRequest) (u : TicketPatch) : TicketPatch :=
  match req.assignedTo with
  | none => u
  | some a =>
    { u with
      assignedTo := some a
      assignedName := some (match req.assignedName with
        | some s => if s = "" then none else some s
        | none => none) }

/-- The archive-flag blocks. -/
def applyArchivedFields (req : TicketUpdateRequest) (u : TicketPatch) : TicketPatch :=
  let u1 := match req.customerArchived with
    | none => u
    | some b => { u with customerArchived := some b }
  match req.adminArchived with
  | none => u1
  | some b => { u1 with adminArchived := some b }

/-- Build the PATCH body, or the 400 error message, exactly as the
updater handler does after the existence check. -/
def buildUpdateData (now : String) (req : TicketUpdateRequest) : Except String TicketPatch :=
  match applyStatusField now req.status (emptyPatch now) with
  | .error e => .error e
  | .ok u1 =>
    match applyPriorityField req.priority u1 with
    | .error e => .error e
    | .ok u2 => .ok (applyArchivedFields req (applyAssignField req u2))

/-- Supabase PATCH semantics: fields present in the body overwrite the
row, absent fields keep their stored value. -/
def applyPatch (u : TicketPatch) (t : Ticket) : Ticket :=
  { t with
    updatedAt := u.updatedAt,
    status := u.status.getD t.status,
    resolvedAt := match u.resolvedAt with | none => t.resolvedAt | some r => some r,
    priority := u.priority.getD t.priority,
    assignedTo := match u.assignedTo with | none => t.assignedTo | some a => a,
    assignedName := match u.assignedName with | none => t.assignedName | some a => a,
    customerArchived := u.customerArchived.getD t.customerArchived,
    adminArchived := u.adminArchived.getD t.adminArchived }

/-- The updater's response classes. -/
inductive UpdateResponse where
  | badRequest (msg : String)
  | notFound
  | ok
  deriving DecidableEq

def UpdateResponse.code : UpdateResponse → Nat
  | .badRequest _ => 400
  | .notFound => 404
  | .ok => 200

/-- The whole updater handler as one step over the tickets table:
falsy `ticketId` → 400; no matching row → 404; invalid enum → 400 with
no PATCH; otherwise PATCH the matching row. -/
def ticketUpdateStep (now : String) (store : List Ticket) (req : TicketUpdateRequest) :
    UpdateResponse × List Ticket :=
  if req.ticketId = "" then (.badRequest "ticketId is required", store)
  else if (store.filter (fun t => t.id = req.ticketId)).isEmpty then (.notFound, store)
  else
    match buildUpdateData now req with
    | .error e => (.badRequest e, store)
    | .ok u => (.ok, store.map (fun t => if t.id = req.ticketId then applyPatch u t else t))

/-! ### Updater theorems -/

theorem applyAssignField_resolvedAt (req : TicketUpdateRequest) (u : TicketPatch) :
    (applyAssignField req u).resolvedAt = u.resolvedAt := by
  unfold applyAssignField
  cases req.assignedTo <;> rfl

theorem applyArchivedFields_resolvedAt (req : TicketUpdateRequest) (u : TicketPatch) :
    (applyArchivedFields req u).resolvedAt = u.resolvedAt := by
  unfold applyArchivedFields
  cases req.customerArchived <;> cases req.adminArchived <;> rfl

theorem applyStatusField_valid (now s : String) (u : TicketPatch)
    (hsv : s ∈ VALID_STATUSES) :
    applyStatusField now (some s) u =
      .ok { u with
            status := some s
            resolvedAt := if s = "Resolved" || s = "Closed" then some now
              else u.resolvedAt } := by
  simp [applyStatusField, hsv]

theorem applyStatusField_invalid (now s : String) (u : TicketPatch)
    (hsv : s ∉ VALID_STATUSES) :
    applyStatusField now (some s) u =
      .error "Invalid status. Must be one of: Open, Pending, Resolved, Closed" := by
  simp [applyStatusField, hsv]

theorem applyPriorityField_invalid (p : String) (u : TicketPatch)
    (hpv : p ∉ VALID_PRIORITIES) :
    applyPriorityField (some p) u =
      .error "Invalid priority. Must be one of: normal, high, urgent" := by
  simp [applyPriorityField, hpv]

theorem applyPriorityField_ok (priority? : Option String) (u : TicketPatch)
    (h : ∀ p, priority? = some p → p ∈ VALID_PRIORITIES) :
    ∃ u', applyPriorityField priority? u = .ok u' ∧ u'.resolvedAt = u.resolvedAt := by
  cases priority? with
  | none => exact ⟨u, rfl, rfl⟩
  | some p =>
    have hp : p ∈ VALID_PRIORITIES := h p rfl
    exact ⟨{ u with priority := some p }, by simp [applyPriorityField, hp], rfl⟩

/-- If the request carries an invalid status or an invalid priority,
`buildUpdateData` yields an error. -/
theorem buildUpdateData_invalid (now : String) (req : TicketUpdateRequest)
    (h : (∃ s, req.status = some s ∧ s ∉ VALID_STATUSES) ∨
         (∃ p, req.priority = some p ∧ p ∉ VALID_PRIORITIES)) :
    ∃ e, buildUpdateData now req = .error e := by
  rcases h with ⟨s, hs, hsv⟩ | ⟨p, hp, hpv⟩
  · refine ⟨"Invalid status. Must be one of: Open, Pending, Resolved, Closed", ?_⟩
    unfold buildUpdateData
    rw [hs, applyStatusField_invalid now s _ hsv]
  · cases hst : req.status with
    | none =>
      refine ⟨"Invalid priority. Must be one of: normal, high, urgent", ?_⟩
      unfold buildUpdateData
      rw [hst, hp]
      simp only [applyStatusField, applyPriorityField_invalid p _ hpv]
    | some s =>
      by_cases hsv : s ∈ VALID_STATUSES
      · refine ⟨"Invalid priority. Must be one of: normal, high, urgent", ?_⟩
        unfold buildUpdateData
        rw [hst, hp, applyStatusField_valid now s _ hsv]
        simp only [applyPriorityField_invalid p _ hpv]
      · refine ⟨"Invalid status. Must be one of: Open, Pending, Resolved, Closed", ?_⟩
        unfold buildUpdateData
        rw [hst, applyStatusField_invalid now s _ hsv]

/-- C6: an update request on an existing ticket whose `status` is outside
{Open, Pending, Resolved, Closed} or whose `priority` is outside
{normal, high, urgent} gets a 400 and the handler performs no PATCH: the
stored table — every field of every row, `updatedAt` included — is
returned unchanged. -/
theorem ticketUpdate_invalid_enum_rejects (now : String) (store : List Ticket)
    (req : TicketUpdateRequest) (t : Ticket)
    (hid : req.ticketId ≠ "") (ht : t ∈ store) (htid : t.id = req.ticketId)
    (hbad : (∃ s, req.status = some s ∧ s ∉ VALID_STATUSES) ∨
            (∃ p, req.priority = some p ∧ p ∉ VALID_PRIORITIES)) :
    (ticketUpdateStep now store req).1.code = 400 ∧
    (ticketUpdateStep now store req).2 = store := by
  have hmem : t ∈ store.filter (fun x => x.id = req.ticketId) :=
    List.mem_filter.mpr ⟨ht, by simp [htid]⟩
  have hne : (store.filter (fun x => x.id = req.ticketId)).isEmpty = false := by
    cases hf : store.filter (fun x => x.id = req.ticketId) with
    | nil => rw [hf] at hmem; simp at hmem
    | cons a as => rfl
  obtain ⟨e, he⟩ := buildUpdateData_invalid now req hbad
  unfold ticketUpdateStep
  rw [if_neg hid, hne, he]
  exact ⟨rfl, rfl⟩

/-- C5: an update request on an existing ticket that passes validation
stamps `resolvedAt` with the current time exactly when the requested
status is Resolved or Closed; a requested status of Open or Pending
leaves the stored `resolvedAt` untouched (including a previously set
timestamp). -/
theorem ticketUpdate_resolvedAt (now : String) (store : List Ticket)
    (req : TicketUpdateRequest) (t : Ticket)
    (hid : req.ticketId ≠ "") (ht : t ∈ store) (htid : t.id = req.ticketId)
    (hpri : ∀ p, req.priority = some p → p ∈ VALID_PRIORITIES) :
    ((req.status = some "Resolved" ∨ req.status = some "Closed") →
      ∃ u, buildUpdateData now req = .ok u ∧
        (ticketUpdateStep now store req).1 = .ok ∧
        (ticketUpdateStep now store req).2 =
          store.map (fun x => if x.id = req.ticketId then applyPatch u x else x) ∧
        (applyPatch u t).resolvedAt = some now) ∧
    ((req.status = some "Open" ∨ req.status = some "Pending") →
      ∃ u, buildUpdateData now req = .ok u ∧
        (ticketUpdateStep now store req).1 = .ok ∧
        (ticketUpdateStep now store req).2 =
          store.map (fun x => if x.id = req.ticketId then applyPatch u x else x) ∧
        (applyPatch u t).resolvedAt = t.resolvedAt) := by
  have hmem : t ∈ store.filter (fun x => x.id = req.ticketId) :=
    List.mem_filter.mpr ⟨ht, by simp [htid]⟩
  have hne : (store.filter (fun x => x.id = req.ticketId)).isEmpty = false := by
    cases hf : store.filter (fun x => x.id = req.ticketId) with
    | nil => rw [hf] at hmem; simp at hmem
    | cons a as => rfl
  have hstep : ∀ u, buildUpdateData now req = .ok u →
      (ticketUpdateStep now store req).1 = .ok ∧
      (ticketUpdateStep now store req).2 =
        store.map (fun x => if x.id = req.ticketId then applyPatch u x else x) := by
    intro u hu
    unfold ticketUpdateStep
    rw [if_neg hid, hne, hu]
    exact ⟨rfl, rfl⟩
  have hbuild : ∀ s, req.status = some s → s ∈ VALID_STATUSES →
      ∃ u, buildUpdateData now req = .ok u ∧
        u.resolvedAt = (if s = "Resolved" || s = "Closed" then some now else none) := by
    intro s hs hsv
    have h1 := applyStatusField_valid now s (emptyPatch now) hsv
    obtain ⟨u2, hu2, hres2⟩ := applyPriorityField_ok req.priority
      ({ emptyPatch now with
         status := some s
         resolvedAt := if s = "Resolved" || s = "Closed" then some now else
           (emptyPatch now).resolvedAt }) hpri
    refine ⟨applyArchivedFields req (applyAssignField req u2), ?_, ?_⟩
    · unfold buildUpdateData
      simp only [hs, h1, hu2]
    · rw [applyArchivedFields_resolvedAt, applyAssignField_resolvedAt, hres2]
      rfl
  constructor
  · intro hst
    have hs : ∃ s, req.status = some s ∧ s ∈ VALID_STATUSES ∧
        (s = "Resolved" || s = "Closed") = true := by
      rcases hst with h | h
      · exact ⟨"Resolved", h, by decide, by decide⟩
      · exact ⟨"Closed", h, by decide, by decide⟩
    obtain ⟨s, hsq, hsv, hrc⟩ := hs
    obtain ⟨u, hu, hres⟩ := hbuild s hsq hsv
    rw [hrc] at hres
    refine ⟨u, hu, (hstep u hu).1, (hstep u hu).2, ?_⟩
    simp [applyPatch, hres]
  · intro hst
    have hs : ∃ s, req.status = some s ∧ s ∈ VALID_STATUSES ∧
        (s = "Resolved" || s = "Closed") = false := by
      rcases hst with h | h
      · exact ⟨"Open", h, by decide, by decide⟩
      · exact ⟨"Pending", h, by decide, by decide⟩
    obtain ⟨s, hsq, hsv, hrc⟩ := hs
    obtain ⟨u, hu, hres⟩ := hbuild s hsq hsv
    rw [hrc] at hres
    refine ⟨u, hu, (hstep u hu).1, (hstep u hu).2, ?_⟩
    simp [applyPatch, hres]

/-- A ticket as first created: number 1001, status Open, no `resolvedAt`. -/
def demoTicket : Ticket := buildTicket "tkt_x" "2024-01-01T00:00:00Z" 1001 demoReq

/-- The same ticket after an earlier resolution: `resolvedAt` already set. -/
def demoTicketResolved : Ticket :=
  { demoTicket with status := "Resolved", resolvedAt := some "2023-12-31T00:00:00Z" }

/-- An update request closing the ticket. -/
def reqClosed : TicketUpdateRequest :=
  { ticketId := "tkt_x", status := some "Closed", priority := none, assignedTo := none,
    assignedName := none, customerArchived := none, adminArchived := none }

/-- An update request reopening the ticket. -/
def reqOpen : TicketUpdateRequest :=
  { ticketId := "tkt_x", status := some "Open", priority := none, assignedTo := none,
    assignedName := none, customerArchived := none, adminArchived := none }

/-- An update request with a status outside the allowed set. -/
def reqBadStatus : TicketUpdateRequest :=
  { ticketId := "tkt_x", status := some "Bogus", priority := none, assignedTo := none,
    assignedName := none, customerArchived := none, adminArchived := none }

/-- Witness for C5: closing and reopening `demoTicket` both PATCH
successfully. -/
theorem ticketUpdate_resolvedAt_witness :
    (ticketUpdateStep "2024-02-01" [demoTicket] reqClosed).1 = UpdateResponse.ok ∧
    (ticketUpdateStep "2024-02-02" [demoTicketResolved] reqOpen).1 = UpdateResponse.ok := by
  have hpriC : ∀ p, reqClosed.priority = some p → p ∈ VALID_PRIORITIES :=
    fun p hp => Option.noConfusion hp
  have hpriO : ∀ p, reqOpen.priority = some p → p ∈ VALID_PRIORITIES :=
    fun p hp => Option.noConfusion hp
  obtain ⟨u1, _, hok1, _, _⟩ :=
    (ticketUpdate_resolvedAt "2024-02-01" [demoTicket] reqClosed demoTicket (by decide)
      (by simp) rfl hpriC).1 (Or.inr rfl)
  obtain ⟨u2, _, hok2, _, _⟩ :=
    (ticketUpdate_resolvedAt "2024-02-02" [demoTicketResolved] reqOpen demoTicketResolved
      (by decide) (by simp) rfl hpriO).2 (Or.inl rfl)
  exact ⟨hok1, hok2⟩

/-- Witness for C6: an update with status `"Bogus"` on the stored
`demoTicket` yields 400 and leaves the table unchanged. -/
theorem ticketUpdate_invalid_enum_rejects_witness :
    (ticketUpdateStep "2024-02-01" [demoTicket] reqBadStatus).1.code = 400 ∧
    (ticketUpdateStep "2024-02-01" [demoTicket] reqBadStatus).2 = [demoTicket] :=
  ticketUpdate_invalid_enum_rejects "2024-02-01" [demoTicket] reqBadStatus demoTicket
    (by decide) (by simp) rfl (Or.inl ⟨"Bogus", rfl, by decide⟩)

/-! ### Message data model and Message Writer: `ticket-reply.js`

A row of the `ticket_messages` table, and the reply handler that appends
one and flips the parent ticket's status as a side effect. -/

structure Message where
  id : String
  ticketId : String
  message : String
  authorId : Option String
  authorName : String
  authorEmail : Option String
  isStaff : Bool
  isInternal : Bool
  attachments : Option (List String)
  createdAt : String
  deriving DecidableEq

/-- Body of a `POST ticket-reply` request.  An absent or empty `message`
is `""` and an absent or empty `attachments` is `[]` (both are exactly
the JavaScript falsy cases the handler checks); `isStaff`/`isInternal`
model `isStaff || false` / `isInternal || false`. -/
structure ReplyRequest where
  ticketId : String
  message : String
  authorId : Option String
  authorName : Option String
  authorEmail : Option String
  isStaff : Bool
  isInternal : Bool
  attachments : List String
  deriving DecidableEq

/-- The message row the reply handler inserts:
`(message || '').trim() || '(Attachment)'`, `authorName || 'Customer'`. -/
def buildReplyMessage (genId now : String) (req : ReplyRequest) : Message :=
  { id := genId
    ticketId := req.ticketId
    message := if req.message.trim = "" then "(Attachment)" else req.message.trim
    authorId := req.authorId
    authorName := match req.authorName with
      | some s => if s = "" then "Customer" else s
      | none => "Customer"
    authorEmail := req.authorEmail
    isStaff := req.isStaff
    isInternal := req.isInternal
    attachments := if req.attachments.isEmpty then none else some req.attachments
    createdAt := now }

/-- The status the reply handler writes to the parent ticket: staff,
non-internal replies set Pending; non-staff replies set Open; internal
staff notes write no status field. -/
def replyStatusUpdate (req : ReplyRequest) : Option String :=
  if req.isStaff && !req.isInternal then some "Pending"
  else if !req.isStaff then some "Open"
  else none

/-- The PATCH the reply handler sends to the parent ticket
(`updated_at` always, `status` only when `replyStatusUpdate` demands). -/
def applyReplyToTicket (now : String) (req : ReplyRequest) (t : Ticket) : Ticket :=
  { t with updatedAt := now, status := (replyStatusUpdate req).getD t.status }

/-- The reply handler's response classes. -/
inductive ReplyResponse where
  | badRequest
  | notFound
  | created (m : Message)
  deriving DecidableEq

/-- The whole reply handler as one step over the two tables: validate,
check the ticket exists, insert the message, PATCH the parent ticket. -/
def ticketReplyStep (genId now : String) (tickets : List Ticket) (messages : List Message)
    (req : ReplyRequest) : ReplyResponse × List Ticket × List Message :=
  if req.ticketId = "" ∨ (req.message = "" ∧ req.attachments = []) then
    (.badRequest, tickets, messages)
  else if (tickets.filter (fun t => t.id = req.ticketId)).isEmpty then
    (.notFound, tickets, messages)
  else
    let msg := buildReplyMessage genId now req
    (.created msg,
     tickets.map (fun t => if t.id = req.ticketId then applyReplyToTicket now req t else t),
     messages ++ [msg])

/-- C7: for a successful reply on an existing ticket, a non-staff reply
forces the parent ticket's status to Open regardless of its prior value;
a non-internal staff reply forces it to Pending; an internal staff note
does not write the status field, so the prior status is kept. -/
theorem ticketReply_status_side_effect (genId now : String) (tickets : List Ticket)
    (messages : List Message) (req : ReplyRequest) (t : Ticket)
    (hid : req.ticketId ≠ "") (hbody : req.message ≠ "" ∨ req.attachments ≠ [])
    (ht : t ∈ tickets) (htid : t.id = req.ticketId) :
    (ticketReplyStep genId now tickets messages req).1 =
      .created (buildReplyMessage genId now req) ∧
    (ticketReplyStep genId now tickets messages req).2.1 =
      tickets.map (fun x => if x.id = req.ticketId then applyReplyToTicket now req x else x) ∧
    (req.isStaff = false → (applyReplyToTicket now req t).status = "Open") ∧
    (req.isStaff = true → req.isInternal = false →
      (applyReplyToTicket now req t).status = "Pending") ∧
    (req.isStaff = true → req.isInternal = true →
      (applyReplyToTicket now req t).status = t.status) := by
  have hcond : ¬(req.ticketId = "" ∨ (req.message = "" ∧ req.attachments = [])) := by
    rintro (h | ⟨h1, h2⟩)
    · exact hid h
    · rcases hbody with h | h
      · exact h h1
      · exact h h2
  have hmem : t ∈ tickets.filter (fun x => x.id = req.ticketId) :=
    List.mem_filter.mpr ⟨ht, by simp [htid]⟩
  have hne : (tickets.filter (fun x => x.id = req.ticketId)).isEmpty = false := by
    cases hf : tickets.filter (fun x => x.id = req.ticketId) with
    | nil => rw [hf] at hmem; simp at hmem
    | cons a as => rfl
  refine ⟨?_, ?_, ?_, ?_, ?_⟩
  · unfold ticketReplyStep
    rw [if_neg hcond, hne]
    simp
  · unfold ticketReplyStep
    rw [if_neg hcond, hne]
    simp
  · intro hstaff
    simp [applyReplyToTicket, replyStatusUpdate, hstaff]
  · intro hstaff hint
    simp [applyReplyToTicket, replyStatusUpdate, hstaff, hint]
  · intro hstaff hint
    simp [applyReplyToTicket, replyStatusUpdate, hstaff, hint]

/-- A customer reply request on the demo ticket. -/
def demoCustomerReply : ReplyRequest :=
  { ticketId := "tkt_x", message := "Any update?", authorId := none, authorName := none,
    authorEmail := none, isStaff := false, isInternal := false, attachments := [] }

/-- Witness for C7: a customer reply on the stored `demoTicketResolved`
(previously Resolved) flips its status back to Open. -/
theorem ticketReply_status_side_effect_witness :
    (ticketReplyStep "msg_1" "2024-02-03" [demoTicketResolved] [] demoCustomerReply).1 =
      ReplyResponse.created (buildReplyMessage "msg_1" "2024-02-03" demoCustomerReply) ∧
    (applyReplyToTicket "2024-02-03" demoCustomerReply demoTicketResolved).status = "Open" := by
  have h := ticketReply_status_side_effect "msg_1" "2024-02-03" [demoTicketResolved] []
    demoCustomerReply demoTicketResolved (by decide) (Or.inl (by decide)) (by simp) rfl
  exact ⟨h.1, h.2.2.1 rfl⟩

/-! ### Message Reader: `ticket-messages.js`

The handler queries the `ticket_messages` table for one ticket in
`created_at` ascending order (the stored list below is taken to be in
that order) and filters out internal notes unless `includeInternal` is
exactly the string `'true'`. -/

/-- The row filter of the Message Reader query: always restrict to the
ticket; add `is_internal=eq.false` unless `includeInternal === 'true'`. -/
def ticketMessagesQuery (store : List Message) (ticketId : String)
    (includeInternal : Option String) : List Message :=
  let base := store.filter (fun m => m.ticketId = ticketId)
  if includeInternal ≠ some "true" then base.filter (fun m => m.isInternal = false) else base

/-- The Message Reader handler: 400 on a falsy `ticketId`, otherwise 200
with the (possibly internal-filtered) message list. -/
def ticketMessagesHandler (store : List Message) (ticketId? includeInternal : Option String) :
    Nat × List Message :=
  match ticketId? with
  | none => (400, [])
  | some tid => if tid = "" then (400, []) else (200, ticketMessagesQuery store tid includeInternal)

/-- C8: with `includeInternal` unset or set to anything but the literal
`"true"`, the returned list contains no message with `isInternal = true`;
with `includeInternal = "true"`, the full per-ticket list — internal
messages included — is returned. -/
theorem ticketMessages_internal_filter (store : List Message) (tid : String)
    (includeInternal : Option String) (hid : tid ≠ "") :
    (ticketMessagesHandler store (some tid) includeInternal).1 = 200 ∧
    (includeInternal ≠ some "true" →
      ∀ m ∈ (ticketMessagesHandler store (some tid) includeInternal).2, m.isInternal = false) ∧
    (includeInternal = some "true" →
      (ticketMessagesHandler store (some tid) includeInternal).2 =
        store.filter (fun m => m.ticketId = tid)) := by
  refine ⟨?_, ?_, ?_⟩
  · simp [ticketMessagesHandler, hid]
  · intro hinc m hm
    simp only [ticketMessagesHandler, if_neg hid] at hm
    unfold ticketMessagesQuery at hm
    rw [if_pos hinc] at hm
    have := List.of_mem_filter hm
    simpa using this
  · intro hinc
    simp [ticketMessagesHandler, hid, ticketMessagesQuery, hinc]

/-- Two stored messages on the demo ticket: one public, one internal. -/
def demoMessages : List Message :=
  [{ id := "msg_p", ticketId := "tkt_x", message := "Public", authorId := none,
     authorName := "Customer", authorEmail := none, isStaff := false, isInternal := false,
     attachments := none, createdAt := "2024-02-01" },
   { id := "msg_i", ticketId := "tkt_x", message := "Internal note", authorId := none,
     authorName := "Staff", authorEmail := none, isStaff := true, isInternal := true,
     attachments := none, createdAt := "2024-02-02" }]

/-- Witness for C8: with no `includeInternal`, the internal note is
absent from the demo store's response. -/
theorem ticketMessages_internal_filter_witness :
    (ticketMessagesHandler demoMessages (some "tkt_x") none).1 = 200 ∧
    ∀ m ∈ (ticketMessagesHandler demoMessages (some "tkt_x") none).2, m.isInternal = false := by
  have h := ticketMessages_internal_filter demoMessages "tkt_x" none (by decide)
  exact ⟨h.1, h.2.1 (by decide)⟩

/-! ### Notifier: `ticket-notify.js`

The handler destructures the POST body, rejects with 400 when
`(!customerEmail && !adminEmail) || !ticketNumber`, then — before looking
at `type` — returns 200 with a warning when `RESEND_API_KEY` is not
configured, and only then switches on `type` (unknown tags hit the 400
default).  Template rendering and the Resend call are pure formatting /
the upstream round trip and are elided; the `dispatch` outcome records
the selected recipient. -/

/-- JavaScript truthiness of an optional string (`undefined`/`''` falsy). -/
def truthyStr : Option String → Bool
  | none => false
  | some s => !(s = "")

/-- JavaScript truthiness of an optional number (`undefined`/`0` falsy). -/
def truthyNum : Option Nat → Bool
  | none => false
  | some n => !(n = 0)

/-- Body of a `POST ticket-notify` request (fields the handler reads). -/
structure NotifyRequest where
  type : Option String
  customerEmail : Option String
  customerName : Option String
  ticketNumber : Option Nat
  ticketSubject : Option String
  message : Option String
  newStatus : Option String
  staffName : Option String
  adminEmail : Option String
  ticketType : Option String
  ticketDescription : Option String
  deriving DecidableEq

/-- Outcome of the notify handler before the Resend round trip: a 400
rejection, the 200 configuration-skip, or an email dispatch to the
selected recipient (whose final status depends on the provider). -/
inductive NotifyOutcome where
  | badRequest (msg : String)
  | skipConfig
  | dispatch (toEmail : Option String)
  deriving DecidableEq

/-- HTTP status of a `NotifyOutcome`, where it is determined locally:
`badRequest` is 400, `skipConfig` is 200 with
`{ warning: 'Email not configured' }`; a dispatch's status comes from the
provider response. -/
def NotifyOutcome.statusPure : NotifyOutcome → Option Nat
  | .badRequest _ => some 400
  | .skipConfig => some 200
  | .dispatch _ => none

/-- The notify handler's decision logic, in source order: the required
field guard, then the `RESEND_API_KEY` check, then the `type` switch. -/
def notifyDecision (apiKey : Option String) (req : NotifyRequest) : NotifyOutcome :=
  if ((!truthyStr req.customerEmail && !truthyStr req.adminEmail) ||
      !truthyNum req.ticketNumber) then
    .badRequest "Missing required fields"
  else if !truthyStr apiKey then
    .skipConfig
  else
    match req.type with
    | some "admin_reply" => .dispatch req.customerEmail
    | some "status_changed" => .dispatch req.customerEmail
    | some "ticket_created" => .dispatch req.customerEmail
    | some "new_ticket_admin" => .dispatch req.adminEmail
    | _ => .badRequest "Invalid notification type"

/-- The four `type` tags the switch recognises. -/
def recognizedTypes : List String :=
  ["admin_reply", "status_changed", "ticket_created", "new_ticket_admin"]

/-- Is the request's `type` one of the recognised tags? -/
def isRecognizedType : Option String → Bool
  | some s => recognizedTypes.contains s
  | none => false

/-- A notify request with a recipient, a ticket number and an
unrecognised `type` tag. -/
def reqBogusType : NotifyRequest :=
  { type := some "bogus", customerEmail := some "customer@example.com", customerName := none,
    ticketNumber := some 1001, ticketSubject := some "Help", message := none, newStatus := none,
    staffName := none, adminEmail := none, ticketType := none, ticketDescription := none }

/-- Counterexample for C9 as stated: with the email-provider credential
not configured, a request whose `type` is unrecognised (recipient and
ticketNumber present) gets status 200 — the `RESEND_API_KEY` check
returns early, so the type switch is never reached and no 400 is
produced. -/
theorem notify_unrecognized_type_counterexample :
    (notifyDecision none reqBogusType).statusPure = some 200 := rfl

/-- C9 (amended): a request with neither a customer nor an admin
recipient email always gets 400; an unrecognised `type` gets 400 whenever
the email-provider credential IS configured; when the credential is not
configured, any request passing the recipient/ticketNumber guard gets 200
with a warning before the type switch is reached. -/
theorem notify_validation (apiKey : Option String) (req : NotifyRequest) :
    (truthyStr req.customerEmail = false → truthyStr req.adminEmail = false →
      (notifyDecision apiKey req).statusPure = some 400) ∧
    (truthyStr apiKey = true → isRecognizedType req.type = false →
      (notifyDecision apiKey req).statusPure = some 400) ∧
    (truthyStr apiKey = false →
      (truthyStr req.customerEmail = true ∨ truthyStr req.adminEmail = true) →
      truthyNum req.ticketNumber = true →
      (notifyDecision apiKey req).statusPure = some 200) := by
  refine ⟨?_, ?_, ?_⟩
  · intro hc ha
    simp [notifyDecision, hc, ha, NotifyOutcome.statusPure]
  · intro hk htype
    by_cases hguard : ((!truthyStr req.customerEmail && !truthyStr req.adminEmail) ||
        !truthyNum req.ticketNumber) = true
    · simp [notifyDecision, hguard, NotifyOutcome.statusPure]
    · rw [Bool.not_eq_true] at hguard
      have hsw : (match req.type with
          | some "admin_reply" => NotifyOutcome.dispatch req.customerEmail
          | some "status_changed" => NotifyOutcome.dispatch req.customerEmail
          | some "ticket_created" => NotifyOutcome.dispatch req.customerEmail
          | some "new_ticket_admin" => NotifyOutcome.dispatch req.adminEmail
          | _ => NotifyOutcome.badRequest "Invalid notification type") =
          NotifyOutcome.badRequest "Invalid notification type" := by
        cases htv : req.type with
        | none => rfl
        | some s =>
          rw [htv] at htype
          simp only [isRecognizedType, recognizedTypes] at htype
          have h1 : s ≠ "admin_reply" := by
            intro h; subst h; simp at htype
          have h2 : s ≠ "status_changed" := by
            intro h; subst h; simp at htype
          have h3 : s ≠ "ticket_created" := by
            intro h; subst h; simp at htype
          have h4 : s ≠ "new_ticket_admin" := by
            intro h; subst h; simp at htype
          rcases String.decEq s "admin_reply" with hne | heq
          · rcases String.decEq s "status_changed" with hne2 | heq
            · rcases String.decEq s "ticket_created" with hne3 | heq
              · rcases String.decEq s "new_ticket_admin" with hne4 | heq
                · simp [hne, hne2, hne3, hne4]
                · exact absurd heq h4
              · exact absurd heq h3
            · exact absurd heq h2
          · exact absurd heq h1
      simp [notifyDecision, hguard, hk, hsw, NotifyOutcome.statusPure]
  · intro hk hrecip hticket
    have hguard : ((!truthyStr req.customerEmail && !truthyStr req.adminEmail) ||
        !truthyNum req.ticketNumber) = false := by
      rcases hrecip with h | h <;> simp [h, hticket]
    simp [notifyDecision, hguard, hk, NotifyOutcome.statusPure]

/-- A notify request with no recipient at all. -/
def reqNoRecipient : NotifyRequest :=
  { type := some "ticket_created", customerEmail := none, customerName := none,
    ticketNumber := some 1001, ticketSubject := some "Help", message := none, newStatus := none,
    staffName := none, adminEmail := none, ticketType := none, ticketDescription := none }

/-- Witness for the amended C9: no recipient → 400, and an unrecognised
type with the credential configured → 400. -/
theorem notify_validation_witness :
    (notifyDecision (some "re_key") reqNoRecipient).statusPure = some 400 ∧
    (notifyDecision (some "re_key") reqBogusType).statusPure = some 400 := by
  constructor
  · exact (notify_validation (some "re_key") reqNoRecipient).1 rfl rfl
  · exact (notify_validation (some "re_key") reqBogusType).2.1 rfl rfl

/-- C10: a request whose `ticketNumber` is absent or falsy gets 400, even
when a recipient is present and the `type` is recognised — `ticketNumber`
is a required field of the validation guard. -/
theorem notify_requires_ticketNumber (apiKey : Option String) (req : NotifyRequest)
    (h : truthyNum req.ticketNumber = false) :
    (notifyDecision apiKey req).statusPure = some 400 := by
  have hguard : ((!truthyStr req.customerEmail && !truthyStr req.adminEmail) ||
      !truthyNum req.ticketNumber) = true := by
    simp [h]
  simp [notifyDecision, hguard, NotifyOutcome.statusPure]

/-- A notify request with a recipient and a recognised type but no
ticket number. -/
def reqNoTicketNumber : NotifyRequest :=
  { type := some "ticket_created", customerEmail := some "customer@example.com",
    customerName := none, ticketNumber := none, ticketSubject := some "Help", message := none,
    newStatus := none, staffName := none, adminEmail := none, ticketType := none,
    ticketDescription := none }

/-- Witness for C10 at `reqNoTicketNumber` with the credential
configured. -/
theorem notify_requires_ticketNumber_witness :
    (notifyDecision (some "re_key") reqNoTicketNumber).statusPure = some 400 :=
  notify_requires_ticketNumber (some "re_key") reqNoTicketNumber rfl

end EquipmentListApi
